import Mathlib

/-!
Shallow embedding of the two core components of the notebook repository:
the GaborFilters parametric kernel generator (partie_1) and the patch
Sampler Dataset (partie_2).

Lines of the notebooks that are unfilled exercise blanks are modelled from
the specification; each such definition carries a doc comment starting
with "Modelled from the spec". Everything else is translated directly
from the notebook source.
-/

/-- Error raised during GaborFilters construction. The source contains no
ConfigurationError; the only failure is the Python ZeroDivisionError from
the expression out_channels // n_thetas when the internally computed
n_thetas is 0. -/
inductive GaborInitError where
  | zeroDivisionError
deriving DecidableEq

/-- State of a constructed GaborFilters layer. The four learnable tensors
are random at construction and are kept abstract (they enter the kernel
synthesis as function arguments); the fields below are the deterministic
configuration. n_thetas is the effective orientation count computed in
the constructor. -/
structure GaborFilters where
  in_channels : Nat
  out_channels : Nat
  kernel_size : Nat
  n_thetas : Nat
deriving DecidableEq

/-- GaborFilters.init, from the source constructor. The constructor sets
self.n_thetas = self.out_channels // 16, ignoring the n_thetas argument.
The parameter tensors are then shaped with self.out_channels //
self.n_thetas, which raises ZeroDivisionError when out_channels // 16 is
0. The unfilled exercise lines (the super().__init__ call, delattr,
parameter registration, register_buffer) are modelled from the spec as
non-failing setup. -/
def GaborFilters.init (in_channels out_channels kernel_size n_thetas_arg : Nat) :
    Except GaborInitError GaborFilters :=
  let n_thetas := out_channels / 16
  if n_thetas = 0 then
    Except.error GaborInitError.zeroDivisionError
  else
    Except.ok ⟨in_channels, out_channels, kernel_size, n_thetas⟩

/-- torch.linspace over the reals: steps points from a to b with both
endpoints included; a single step yields the start point. -/
noncomputable def linspace (a b : Real) (steps : Nat) : List Real :=
  (List.range steps).map fun (i : Nat) =>
    if steps ≤ 1 then a else a + (b - a) * (i : Real) / ((steps : Real) - 1)

/-- The fixed orientation-angle vector of the layer, from the source line
thetas = torch.linspace(0., 2*math.pi, self.n_thetas). -/
noncomputable def GaborFilters.thetas (gf : GaborFilters) : List Real :=
  linspace 0 (2 * Real.pi) gf.n_thetas

/-- Centered coordinate axis of the kernel grid, from the source line
x = torch.arange(kernel_size) - (kernel_size - 1)/2. -/
noncomputable def coordAxis (k i : Nat) : Real :=
  (i : Real) - ((k : Real) - 1) / 2

/-- Kernel synthesis, entry-wise, from GaborFilters.gabor_filter. Indexed
by group g (the leading axis of the four parameter tensors, of extent
out_channels / n_thetas), orientation t, input channel c and grid
position (i, j). The parameter tensors are abstract functions of (group,
channel) since their broadcast shape is (groups, 1, in_channels, 1, 1).
The view calls that set up the broadcast are unfilled exercise lines;
the broadcast layout is modelled from the spec. -/
noncomputable def GaborFilters.gaborBank5 (gf : GaborFilters)
    (lam psi sigma gamma : Nat → Nat → Real) (g t c i j : Nat) : Real :=
  let x := coordAxis gf.kernel_size i
  let y := coordAxis gf.kernel_size j
  let th := gf.thetas.getD t 0
  let xr := x * Real.cos th + y * Real.sin th
  let yr := -x * Real.sin th + y * Real.cos th
  Real.exp (-0.5 * ((xr ^ 2 + (gamma g c) ^ 2 * yr ^ 2) / (sigma g c) ^ 2)) *
    Real.cos (2 * Real.pi * xr / lam g c + psi g c)

/-- The synthesized kernel bank after the final reshape
gb.view(out_channels, in_channels, kernel_size, kernel_size): the flat
output-channel index o decomposes as o = g * n_thetas + t. -/
noncomputable def GaborFilters.gabor_filter (gf : GaborFilters)
    (lam psi sigma gamma : Nat → Nat → Real) (o c i j : Nat) : Real :=
  gf.gaborBank5 lam psi sigma gamma (o / gf.n_thetas) (o % gf.n_thetas) c i j

/-- The patch Sampler state, from Dataset.__init__ in partie_2. The image
and label rasters are total functions on integer coordinates (the raster
contents); their extents are kept in the shape fields. -/
structure Dataset where
  data : Int → Int → Int → Int
  label : Int → Int → Int
  patch_size : Int
  ignored_labels : List Int
  height : Nat
  width : Nat
  channels : Nat
  indices : List (Nat × Nat)
  labels : List Int

/-- The mask built in the constructor: np.ones_like(gt) with entries at
ignored labels zeroed. -/
def maskOf (gt : Int → Int → Int) (ig : List Int) (x y : Nat) : Nat :=
  if gt x y ∈ ig then 0 else 1

/-- np.nonzero of the mask: all coordinates of the label raster whose
mask entry is nonzero, in row-major order. -/
def nonzeroCoords (gt : Int → Int → Int) (ig : List Int) (gh gw : Nat) :
    List (Nat × Nat) :=
  (List.range gh).flatMap fun x =>
    ((List.range gw).filter fun y => decide (maskOf gt ig x y ≠ 0)).map fun y => (x, y)

/-- Dataset.__init__ from the source. dh, dw, dc are the image raster
extents (data.shape), gh, gw the label raster extents (the mask has the
shape of gt). The constructor performs no validation: p = patch_size // 2
(floor division); coordinates are border-filtered only when p > 0. -/
def Dataset.init (data : Int → Int → Int → Int) (dh dw dc : Nat)
    (gt : Int → Int → Int) (gh gw : Nat)
    (patch_size : Int) (ignored_labels : List Int) : Dataset :=
  let p := patch_size.fdiv 2
  let nz := nonzeroCoords gt ignored_labels gh gw
  let indices :=
    if 0 < p then
      nz.filter fun xy =>
        decide (p ≤ (xy.1 : Int) ∧ (xy.1 : Int) < (dh : Int) - p ∧
          p ≤ (xy.2 : Int) ∧ (xy.2 : Int) < (dw : Int) - p)
    else nz
  { data := data
    label := gt
    patch_size := patch_size
    ignored_labels := ignored_labels
    height := dh
    width := dw
    channels := dc
    indices := indices
    labels := indices.map fun xy => gt xy.1 xy.2 }

/-- Modelled from the spec: the body of Dataset.__len__ is an unfilled
exercise blank; the spec states that the size query returns the number of
valid coordinates, equal to the length of the index sequence. -/
def Dataset.size (ds : Dataset) : Nat :=
  ds.indices.length

/-- The extraction window of Dataset.__getitem__, from the source lines
x1, y1 = x - patch_size // 2, y - patch_size // 2 and
x2, y2 = x1 + patch_size, y1 + patch_size. Returned as (x1, y1, x2, y2). -/
def Dataset.window (ds : Dataset) (x y : Nat) : Int × Int × Int × Int :=
  let x1 := (x : Int) - ds.patch_size.fdiv 2
  let y1 := (y : Int) - ds.patch_size.fdiv 2
  (x1, y1, x1 + ds.patch_size, y1 + ds.patch_size)

/-- Dataset.__getitem__ from the source. The window arithmetic and the
channel-first copy are source lines; the index lookup, the slice
data[x1:x2, y1:y2] and the label lookup are unfilled exercise blanks.
Modelled from the spec: item access is defined for i in [0, size) and
fails with IndexError outside that range (here: none); the patch
satisfies patch[c][dy][dx] = image[x1 + dy][y1 + dx][c] and the label is
labels[row][col]. -/
def Dataset.getitem (ds : Dataset) (i : Int) :
    Option (List (List (List Int)) × Int) :=
  if 0 ≤ i ∧ i < (ds.size : Int) then
    let xy := ds.indices.getD i.toNat (0, 0)
    let w := ds.window xy.1 xy.2
    let patch := (List.range ds.channels).map fun (c : Nat) =>
      (List.range (w.2.2.1 - w.1).toNat).map fun (dy : Nat) =>
        (List.range (w.2.2.2 - w.2.1).toNat).map fun (dx : Nat) =>
          ds.data (w.1 + (dy : Int)) (w.2.1 + (dx : Int)) (c : Int)
    some (patch, ds.label xy.1 xy.2)
  else
    none

/-! Helper lemmas. -/

/-- Length of a mapped range. -/
theorem length_range_map {α : Type} (f : Nat → α) (n : Nat) :
    ((List.range n).map f).length = n := by
  simp

/-- Indexing a mapped range with getD. -/
theorem getD_range_map {α : Type} (f : Nat → α) (d : α) (n i : Nat) (h : i < n) :
    ((List.range n).map f).getD i d = f i := by
  rw [List.getD_eq_getElem?_getD, List.getElem?_map, List.getElem?_range h]
  rfl

/-- Membership in the nonzero-mask coordinate list. -/
theorem mem_nonzeroCoords (gt : Int → Int → Int) (ig : List Int) (gh gw x y : Nat) :
    (x, y) ∈ nonzeroCoords gt ig gh gw ↔ (x < gh ∧ y < gw ∧ gt x y ∉ ig) := by
  unfold nonzeroCoords maskOf
  simp only [List.mem_flatMap, List.mem_map, List.mem_filter, List.mem_range,
    decide_eq_true_eq, Prod.mk.injEq]
  constructor
  · rintro ⟨a, ha, b, ⟨⟨hb, hmask⟩, hax, hby⟩⟩
    subst hax; subst hby
    refine ⟨ha, hb, ?_⟩
    intro hmem
    simp [hmem] at hmask
  · rintro ⟨hx, hy, hmem⟩
    exact ⟨x, hx, y, ⟨⟨hy, by simp [hmem]⟩, rfl, rfl⟩⟩

/-- Membership in the index set built by the constructor. -/
theorem mem_init_indices (data : Int → Int → Int → Int) (dh dw dc : Nat)
    (gt : Int → Int → Int) (gh gw : Nat) (ps : Int) (ig : List Int) (x y : Nat) :
    (x, y) ∈ (Dataset.init data dh dw dc gt gh gw ps ig).indices ↔
      (x < gh ∧ y < gw ∧ gt x y ∉ ig ∧
        (0 < ps.fdiv 2 →
          (ps.fdiv 2 ≤ (x : Int) ∧ (x : Int) < (dh : Int) - ps.fdiv 2 ∧
           ps.fdiv 2 ≤ (y : Int) ∧ (y : Int) < (dw : Int) - ps.fdiv 2))) := by
  unfold Dataset.init
  by_cases hp : 0 < ps.fdiv 2
  · simp only [hp, if_pos, List.mem_filter, mem_nonzeroCoords, decide_eq_true_eq]
    constructor
    · rintro ⟨⟨h1, h2, h3⟩, h4⟩
      exact ⟨h1, h2, h3, fun _ => h4⟩
    · rintro ⟨h1, h2, h3, h4⟩
      exact ⟨⟨h1, h2, h3⟩, h4 trivial⟩
  · simp only [hp, if_neg, mem_nonzeroCoords, if_false]
    constructor
    · rintro ⟨h1, h2, h3⟩
      exact ⟨h1, h2, h3, fun h => h.elim⟩
    · rintro ⟨h1, h2, h3, _⟩
      exact ⟨h1, h2, h3⟩

/-! Concrete instances used by scenarios, witnesses and counterexamples. -/

/-- The 6 by 6 single-channel test image of the scenario: a distinct value
at every (row, col, channel) triple. -/
def img6 : Int → Int → Int → Int := fun x y c => 100 * x + 10 * y + c

/-- The scenario label raster: all zero except a single 1 at (3, 3). -/
def gt6 : Int → Int → Int := fun x y => if x = 3 ∧ y = 3 then 1 else 0

/-- The scenario Sampler: 6 by 6 raster, one channel, patch size 3, no
ignored labels. -/
def ds6 : Dataset := Dataset.init img6 6 6 1 gt6 6 6 3 []

/-- A Sampler constructed with even nonzero patch size 2 on a 4 by 4
raster with all-zero labels. -/
def ds2 : Dataset := Dataset.init (fun _ _ _ => 0) 4 4 1 (fun _ _ => 0) 4 4 2 []

/-- A Sampler constructed with patch size 0 on the scenario raster. -/
def ds0 : Dataset := Dataset.init img6 6 6 1 gt6 6 6 0 []

/-! Claim theorems. -/

/-- C1 counterexample: the claim states that construction with
out_channels = 30, in_channels = 3, kernel_size = 11, n_thetas = 16 fails
with ConfigurationError. On the code it succeeds: the n_thetas argument
is ignored, the effective orientation count is 30 // 16 = 1, and no
ConfigurationError exists anywhere in the constructor. -/
theorem gabor_init_30_succeeds :
    GaborFilters.init 3 30 11 16 = Except.ok ⟨3, 30, 11, 1⟩ := rfl

/-- C1 (amended): construction never raises ConfigurationError and
ignores the n_thetas argument; it succeeds exactly when out_channels is
at least 16, returning a layer whose effective orientation count is
out_channels // 16 (below 16 it fails with ZeroDivisionError instead). -/
theorem gabor_init_ok_iff (ic oc ks nt : Nat) :
    GaborFilters.init ic oc ks nt = Except.ok ⟨ic, oc, ks, oc / 16⟩ ↔ 16 ≤ oc := by
  unfold GaborFilters.init
  by_cases h : oc / 16 = 0
  · rw [if_pos h]
    have hlt : oc < 16 := by
      rcases (Nat.div_eq_zero_iff (by norm_num)).mp h with h2
      exact h2
    simp [Nat.not_le.mpr hlt]
  · rw [if_neg h]
    have hge : 16 ≤ oc := by
      by_contra hc
      exact h (Nat.div_eq_of_lt (Nat.not_le.mp hc))
    simp [hge]

/-- C9: for every out_channels with 0 < out_channels < 16, construction
fails with a division-by-zero error: the internally computed orientation
count out_channels // 16 is 0 and is then used as a divisor when shaping
the parameter tensors; no ConfigurationError is involved. -/
theorem gabor_init_small_zero_division (oc : Nat) (h1 : 0 < oc) (h2 : oc < 16)
    (ic ks nt : Nat) :
    GaborFilters.init ic oc ks nt = Except.error GaborInitError.zeroDivisionError := by
  unfold GaborFilters.init
  rw [if_pos (Nat.div_eq_of_lt h2)]

/-- C9 witness: out_channels = 15 is strictly between 0 and 16, and
construction there fails with the division-by-zero error. -/
theorem gabor_init_small_zero_division_witness :
    0 < 15 ∧ 15 < 16 ∧
      GaborFilters.init 3 15 11 16 = Except.error GaborInitError.zeroDivisionError :=
  ⟨by decide, by decide, gabor_init_small_zero_division 15 (by decide) (by decide) 3 11 16⟩

/-- C3 counterexample: the claim states the i-th orientation angle equals
i * (2 * pi / n_thetas), so that no two angles coincide modulo 2 * pi. On
the code, construction with out_channels = 32 yields an effective
orientation count of 2 and the angle vector torch.linspace(0, 2 * pi, 2)
= [0, 2 * pi]: the angle at position 1 is 2 * pi, not 1 * (2 * pi / 2) =
pi, and it coincides with the angle at position 0 modulo 2 * pi. -/
theorem thetas_spacing_counterexample :
    GaborFilters.init 3 32 11 16 = Except.ok ⟨3, 32, 11, 2⟩ ∧
    (GaborFilters.mk 3 32 11 2).thetas.getD 1 0 = 2 * Real.pi ∧
    (GaborFilters.mk 3 32 11 2).thetas.getD 1 0 ≠ 1 * (2 * Real.pi / 2) := by
  have hval : (GaborFilters.mk 3 32 11 2).thetas.getD 1 0 = 2 * Real.pi := by
    show (linspace 0 (2 * Real.pi) 2).getD 1 0 = 2 * Real.pi
    unfold linspace
    rw [getD_range_map _ _ 2 1 (by norm_num)]
    norm_num
  refine ⟨rfl, hval, ?_⟩
  rw [hval]
  intro heq
  have hpi := Real.pi_ne_zero
  apply hpi
  nlinarith [heq]

/-- C3 (amended): the fixed orientation-angle vector always has length
n_thetas (the effective count out_channels // 16); for n_thetas = 1 the
vector is [0]; for n_thetas at least 2 the angles are evenly spaced over
the closed interval from 0 to 2 * pi, the i-th angle being
i * (2 * pi / (n_thetas - 1)), so the first and last angles coincide
modulo 2 * pi (they differ by exactly 2 * pi). -/
theorem thetas_closed_interval_spacing (gf : GaborFilters) :
    gf.thetas.length = gf.n_thetas ∧
    (gf.n_thetas = 1 → gf.thetas = [0]) ∧
    (2 ≤ gf.n_thetas →
      ((∀ i, i < gf.n_thetas →
        gf.thetas.getD i 0 = (i : Real) * (2 * Real.pi / ((gf.n_thetas : Real) - 1))) ∧
      gf.thetas.getD (gf.n_thetas - 1) 0 - gf.thetas.getD 0 0 = 2 * Real.pi)) := by
  refine ⟨by simp [GaborFilters.thetas, linspace], ?_, ?_⟩
  · intro h1
    show linspace 0 (2 * Real.pi) gf.n_thetas = [0]
    rw [h1]
    unfold linspace
    simp
  · intro h
    have hn1 : ¬ gf.n_thetas ≤ 1 := by omega
    have hcast : (1 : Real) ≤ (gf.n_thetas : Real) - 1 := by
      have : (2 : Real) ≤ (gf.n_thetas : Real) := by exact_mod_cast h
      linarith
    have hne : ((gf.n_thetas : Real) - 1) ≠ 0 := by linarith
    have hval : ∀ i, i < gf.n_thetas →
        gf.thetas.getD i 0 = (i : Real) * (2 * Real.pi / ((gf.n_thetas : Real) - 1)) := by
      intro i hi
      show (linspace 0 (2 * Real.pi) gf.n_thetas).getD i 0 = _
      unfold linspace
      rw [getD_range_map _ _ _ _ hi, if_neg hn1]
      ring
    refine ⟨hval, ?_⟩
    rw [hval 0 (by omega), hval (gf.n_thetas - 1) (by omega)]
    have hsub : ((gf.n_thetas - 1 : Nat) : Real) = (gf.n_thetas : Real) - 1 := by
      have h1 : 1 ≤ gf.n_thetas := by omega
      rw [Nat.cast_sub h1, Nat.cast_one]
    rw [hsub]
    field_simp

/-- C3 amended witness: for the layer with effective orientation count 1
(out_channels = 16) the vector is the single angle 0, and for effective
count 2 (out_channels = 32) the angle at position 1 equals
1 * (2 * pi / (2 - 1)). -/
theorem thetas_closed_interval_spacing_witness :
    (GaborFilters.mk 3 16 11 1).n_thetas = 1 ∧
    (GaborFilters.mk 3 16 11 1).thetas = [0] ∧
    2 ≤ (GaborFilters.mk 3 32 11 2).n_thetas ∧
    (GaborFilters.mk 3 32 11 2).thetas.getD 1 0 =
      (1 : Real) * (2 * Real.pi / (((GaborFilters.mk 3 32 11 2).n_thetas : Real) - 1)) := by
  refine ⟨rfl, ?_, by norm_num, ?_⟩
  · exact (thetas_closed_interval_spacing (GaborFilters.mk 3 16 11 1)).2.1 rfl
  · have h := ((thetas_closed_interval_spacing (GaborFilters.mk 3 32 11 2)).2.2
      (by norm_num)).1 1 (by norm_num)
    exact_mod_cast h

/-- C7: the kernel synthesis computes, over centered coordinate axes of
length kernel_size ranging over the closed interval from -(k - 1)/2 to
(k - 1)/2, the rotated coordinates xr = x cos t + y sin t and
yr = -x sin t + y cos t for each orientation angle t of the fixed vector,
and every entry of the bank (reshaped to out_channels flat indices o with
orientation o mod n_thetas and parameter group o / n_thetas) equals
exp(-0.5 (xr^2 + gamma^2 yr^2) / sigma^2) * cos(2 pi xr / lambda + psi). -/
theorem gabor_filter_formula (gf : GaborFilters)
    (lam psi sigma gamma : Nat → Nat → Real) :
    (∀ i, i < gf.kernel_size →
      -(((gf.kernel_size : Real) - 1) / 2) ≤ coordAxis gf.kernel_size i ∧
        coordAxis gf.kernel_size i ≤ ((gf.kernel_size : Real) - 1) / 2) ∧
    (∀ o c i j,
      gf.gabor_filter lam psi sigma gamma o c i j =
        Real.exp (-0.5 *
          (((coordAxis gf.kernel_size i *
                Real.cos (gf.thetas.getD (o % gf.n_thetas) 0) +
              coordAxis gf.kernel_size j *
                Real.sin (gf.thetas.getD (o % gf.n_thetas) 0)) ^ 2 +
            (gamma (o / gf.n_thetas) c) ^ 2 *
              (-(coordAxis gf.kernel_size i) *
                  Real.sin (gf.thetas.getD (o % gf.n_thetas) 0) +
                coordAxis gf.kernel_size j *
                  Real.cos (gf.thetas.getD (o % gf.n_thetas) 0)) ^ 2) /
            (sigma (o / gf.n_thetas) c) ^ 2)) *
        Real.cos (2 * Real.pi *
            (coordAxis gf.kernel_size i *
                Real.cos (gf.thetas.getD (o % gf.n_thetas) 0) +
              coordAxis gf.kernel_size j *
                Real.sin (gf.thetas.getD (o % gf.n_thetas) 0)) /
            lam (o / gf.n_thetas) c +
          psi (o / gf.n_thetas) c)) := by
  constructor
  · intro i hi
    unfold coordAxis
    have hle : (i : Real) ≤ (gf.kernel_size : Real) - 1 := by
      have h1 : i + 1 ≤ gf.kernel_size := hi
      have h2 : ((i + 1 : Nat) : Real) ≤ (gf.kernel_size : Real) := by exact_mod_cast h1
      push_cast at h2
      linarith
    have hge : (0 : Real) ≤ (i : Real) := by positivity
    constructor <;> linarith
  · intro o c i j
    rfl

/-- C7 witness: instantiation of the coordinate-range part at
kernel_size = 11 and grid index 0, and of the entry formula at the first
bank entry, for the layer built from out_channels = 32 with constant-one
parameter tensors. -/
theorem gabor_filter_formula_witness :
    (-((((11 : Nat) : Real) - 1) / 2) ≤ coordAxis 11 0 ∧
      coordAxis 11 0 ≤ (((11 : Nat) : Real) - 1) / 2) ∧
    (GaborFilters.mk 3 32 11 2).gabor_filter
        (fun _ _ => 1) (fun _ _ => 1) (fun _ _ => 1) (fun _ _ => 1) 0 0 0 0 =
      Real.exp (-0.5 *
        (((coordAxis 11 0 * Real.cos ((GaborFilters.mk 3 32 11 2).thetas.getD 0 0) +
            coordAxis 11 0 * Real.sin ((GaborFilters.mk 3 32 11 2).thetas.getD 0 0)) ^ 2 +
          (1 : Real) ^ 2 *
            (-(coordAxis 11 0) * Real.sin ((GaborFilters.mk 3 32 11 2).thetas.getD 0 0) +
              coordAxis 11 0 * Real.cos ((GaborFilters.mk 3 32 11 2).thetas.getD 0 0)) ^ 2) /
          (1 : Real) ^ 2)) *
      Real.cos (2 * Real.pi *
          (coordAxis 11 0 * Real.cos ((GaborFilters.mk 3 32 11 2).thetas.getD 0 0) +
            coordAxis 11 0 * Real.sin ((GaborFilters.mk 3 32 11 2).thetas.getD 0 0)) /
          (1 : Real) +
        (1 : Real)) := by
  constructor
  · exact (gabor_filter_formula (GaborFilters.mk 3 32 11 2)
      (fun _ _ => 1) (fun _ _ => 1) (fun _ _ => 1) (fun _ _ => 1)).1 0 (by norm_num)
  · exact (gabor_filter_formula (GaborFilters.mk 3 32 11 2)
      (fun _ _ => 1) (fun _ _ => 1) (fun _ _ => 1) (fun _ _ => 1)).2 0 0 0 0

/-- C4: for every co-registered image/labels pair, patch size and ignored
set, the index set contains (row, col) exactly when the label there is
not ignored and, with p = patch_size // 2, whenever p > 0 the coordinate
lies in the border-excluded box p ≤ row < height - p, p ≤ col < width - p
(for p ≤ 0, in particular patch_size 0, every non-ignored pixel of the
raster is included); and on the scenario raster (6 by 6, single channel,
a single label 1 at (3, 3), no ignored labels, patch size 3) the index
set is exactly the 16 coordinates with row and col between 1 and 4. -/
theorem sampler_index_set_characterization :
    (∀ (data : Int → Int → Int → Int) (h w c : Nat) (gt : Int → Int → Int)
        (ps : Int) (ig : List Int) (x y : Nat),
      (x, y) ∈ (Dataset.init data h w c gt h w ps ig).indices ↔
        (x < h ∧ y < w ∧ gt x y ∉ ig ∧
          (0 < ps.fdiv 2 →
            (ps.fdiv 2 ≤ (x : Int) ∧ (x : Int) < (h : Int) - ps.fdiv 2 ∧
             ps.fdiv 2 ≤ (y : Int) ∧ (y : Int) < (w : Int) - ps.fdiv 2)))) ∧
    ds6.indices = [(1, 1), (1, 2), (1, 3), (1, 4), (2, 1), (2, 2), (2, 3), (2, 4),
      (3, 1), (3, 2), (3, 3), (3, 4), (4, 1), (4, 2), (4, 3), (4, 4)] :=
  ⟨fun data h w c gt ps ig x y => mem_init_indices data h w c gt h w ps ig x y,
   by decide⟩

/-- C6: the size query returns exactly the length of the stored index
sequence, and item access succeeds exactly for the integers i with
0 ≤ i < size (outside that range it fails, the model of IndexError). -/
theorem sampler_size_and_access_domain (ds : Dataset) (i : Int) :
    ds.size = ds.indices.length ∧
    ((ds.getitem i).isSome ↔ (0 ≤ i ∧ i < (ds.size : Int))) := by
  refine ⟨rfl, ?_⟩
  unfold Dataset.getitem
  by_cases h : 0 ≤ i ∧ i < (ds.size : Int)
  · simp only [if_pos h, Option.isSome_some, true_iff]
    exact h
  · simp only [if_neg h, Option.isSome_none, Bool.false_eq_true, false_iff]
    exact h

/-- C2 counterexample: the claim states construction fails with
ConfigurationError when patch_size is even and nonzero. On the code,
construction with patch_size 2 on a 4 by 4 all-zero raster succeeds and
produces a fully determined Sampler: no validation of any kind is
performed by the constructor. -/
theorem dataset_init_even_patch_succeeds :
    ds2.patch_size = 2 ∧ ds2.indices = [(1, 1), (1, 2), (2, 1), (2, 2)] ∧
    ds2.size = 4 ∧ ds2.labels = [0, 0, 0, 0] := by
  refine ⟨rfl, by decide, by decide, by decide⟩

/-- C2 (amended): construction never fails and performs no validation:
for every patch size (negative, even or zero included), every raster pair
(dimensions matched or not) and every ignored set, the Sampler is fully
constructed, stores the given patch size, keeps a labels sequence that is
the index sequence mapped through the label raster, and every stored
coordinate carries a non-ignored label. No ConfigurationError exists in
the code. -/
theorem dataset_init_always_succeeds (data : Int → Int → Int → Int)
    (dh dw dc : Nat) (gt : Int → Int → Int) (gh gw : Nat)
    (ps : Int) (ig : List Int) :
    (Dataset.init data dh dw dc gt gh gw ps ig).patch_size = ps ∧
    (Dataset.init data dh dw dc gt gh gw ps ig).labels =
      (Dataset.init data dh dw dc gt gh gw ps ig).indices.map
        (fun xy => gt xy.1 xy.2) ∧
    ∀ xy, xy ∈ (Dataset.init data dh dw dc gt gh gw ps ig).indices →
      gt xy.1 xy.2 ∉ ig := by
  refine ⟨rfl, rfl, ?_⟩
  intro xy hmem
  have h := (mem_init_indices data dh dw dc gt gh gw ps ig xy.1 xy.2).mp (by
    simpa using hmem)
  exact h.2.2.1

/-- C2 amended witness: the coordinate (1, 1) is stored by the Sampler
with even patch size 2, and its label 0 is not in the empty ignored set. -/
theorem dataset_init_always_succeeds_witness :
    (1, 1) ∈ ds2.indices ∧ (0 : Int) ∉ ([] : List Int) :=
  ⟨by decide,
   dataset_init_always_succeeds (fun _ _ _ => 0) 4 4 1 (fun _ _ => 0) 4 4 2 []
     |>.2.2 (1, 1) (by decide)⟩

/-- C5: for every index i in [0, size), item access returns the pair
(patch, label) of the stored coordinate (row, col): the patch is
channel-first with patch[c][dy][dx] = image[row - p + dy][col - p + dx][c]
for p = patch_size // 2 and dy, dx in [0, patch_size), and the label is
labels[row][col]. -/
theorem sampler_item_access_entries (ds : Dataset) (i : Int)
    (h0 : 0 ≤ i) (h1 : i < (ds.size : Int)) :
    ∃ patch lbl, ds.getitem i = some (patch, lbl) ∧
      lbl = ds.label (ds.indices.getD i.toNat (0, 0)).1
        (ds.indices.getD i.toNat (0, 0)).2 ∧
      patch.length = ds.channels ∧
      ∀ c, c < ds.channels →
        ((patch.getD c []).length = ds.patch_size.toNat ∧
        ∀ dy, dy < ds.patch_size.toNat →
          (((patch.getD c []).getD dy []).length = ds.patch_size.toNat ∧
          ∀ dx, dx < ds.patch_size.toNat →
            (((patch.getD c []).getD dy []).getD dx 0 =
              ds.data
                (((ds.indices.getD i.toNat (0, 0)).1 : Int) -
                  ds.patch_size.fdiv 2 + (dy : Int))
                (((ds.indices.getD i.toNat (0, 0)).2 : Int) -
                  ds.patch_size.fdiv 2 + (dx : Int))
                (c : Int)))) := by
  unfold Dataset.getitem
  rw [if_pos ⟨h0, h1⟩]
  simp only [Dataset.window, add_sub_cancel_left]
  refine ⟨_, _, rfl, rfl, length_range_map _ _, ?_⟩
  intro c hc
  rw [getD_range_map _ _ _ _ hc]
  refine ⟨length_range_map _ _, ?_⟩
  intro dy hdy
  rw [getD_range_map _ _ _ _ hdy]
  refine ⟨length_range_map _ _, ?_⟩
  intro dx hdx
  rw [getD_range_map _ _ _ _ hdx]

/-- C5 witness: on the scenario Sampler, index 10 stores the coordinate
(3, 3); item access there succeeds with the stated entry formulas. -/
theorem sampler_item_access_entries_witness :
    (0 : Int) ≤ 10 ∧ (10 : Int) < (ds6.size : Int) ∧
    ds6.indices.getD (10 : Int).toNat (0, 0) = (3, 3) ∧
    ds6.getitem 10 =
      some ([[[220, 230, 240], [320, 330, 340], [420, 430, 440]]], 1) ∧
    (∃ patch lbl, ds6.getitem 10 = some (patch, lbl) ∧
      lbl = ds6.label (ds6.indices.getD (10 : Int).toNat (0, 0)).1
        (ds6.indices.getD (10 : Int).toNat (0, 0)).2 ∧
      patch.length = ds6.channels ∧
      ∀ c, c < ds6.channels →
        ((patch.getD c []).length = ds6.patch_size.toNat ∧
        ∀ dy, dy < ds6.patch_size.toNat →
          (((patch.getD c []).getD dy []).length = ds6.patch_size.toNat ∧
          ∀ dx, dx < ds6.patch_size.toNat →
            (((patch.getD c []).getD dy []).getD dx 0 =
              ds6.data
                (((ds6.indices.getD (10 : Int).toNat (0, 0)).1 : Int) -
                  ds6.patch_size.fdiv 2 + (dy : Int))
                (((ds6.indices.getD (10 : Int).toNat (0, 0)).2 : Int) -
                  ds6.patch_size.fdiv 2 + (dx : Int))
                (c : Int))))) :=
  ⟨by decide, by decide, by decide, by decide,
   sampler_item_access_entries ds6 10 (by decide) (by decide)⟩

/-- C10: when the Sampler has patch_size 0, the extraction window has
zero spatial extent (x2 = x1 and y2 = y1 for every coordinate), and item
access at any valid index returns a patch whose every channel slice is
empty, that is, spatial dimensions 0 by 0 rather than a 1 by 1 pixel. -/
theorem patch_size_zero_empty_window (ds : Dataset) (hps : ds.patch_size = 0) :
    (∀ x y : Nat,
      (ds.window x y).2.2.1 = (ds.window x y).1 ∧
      (ds.window x y).2.2.2 = (ds.window x y).2.1) ∧
    ∀ i : Int, 0 ≤ i → i < (ds.size : Int) →
      ∃ patch lbl, ds.getitem i = some (patch, lbl) ∧
        patch.length = ds.channels ∧
        ∀ c, c < ds.channels → patch.getD c [] = [] := by
  constructor
  · intro x y
    simp [Dataset.window, hps]
  · intro i h0 h1
    unfold Dataset.getitem
    rw [if_pos ⟨h0, h1⟩]
    simp only [Dataset.window, add_sub_cancel_left, hps, Int.toNat_zero,
      List.range_zero, List.map_nil]
    refine ⟨_, _, rfl, length_range_map _ _, ?_⟩
    intro c hc
    rw [getD_range_map _ _ _ _ hc]

/-- C10 witness: the Sampler on the scenario raster with patch_size 0 has
36 valid coordinates, and item access at index 0 yields an empty-spatial
patch. -/
theorem patch_size_zero_empty_window_witness :
    ds0.patch_size = 0 ∧ (0 : Int) ≤ 0 ∧ (0 : Int) < (ds0.size : Int) ∧
    ds0.getitem 0 = some ([[]], 0) ∧
    (∃ patch lbl, ds0.getitem 0 = some (patch, lbl) ∧
      patch.length = ds0.channels ∧
      ∀ c, c < ds0.channels → patch.getD c [] = []) :=
  ⟨by decide, by decide, by decide, by decide,
   (patch_size_zero_empty_window ds0 (by decide)).2 0 (by decide) (by decide)⟩

/-- C4 witness: the characterization applied at the scenario raster shows
the center coordinate (3, 3) is in the index set. -/
theorem sampler_index_set_characterization_witness :
    (3, 3) ∈ ds6.indices :=
  (sampler_index_set_characterization.1 img6 6 6 1 gt6 3 [] 3 3).mpr (by decide)

/-- C6 witness: on the scenario Sampler, index 3 lies in [0, size), so
item access there succeeds. -/
theorem sampler_size_and_access_domain_witness :
    (ds6.getitem 3).isSome :=
  (sampler_size_and_access_domain ds6 3).2.mpr ⟨by decide, by decide⟩
